import Mathlib

/-!
Shallow embedding of `scripts/prepare_network.py` (PyPSA-Eur network
preparation pipeline).  Pandas/NumPy float arithmetic is modelled over `ℚ`;
tables are association lists keyed by entity name; a time-varying table is a
list of named columns, each column a list with one value per snapshot.
Missing map entries (pandas `NaN` after `.map` on an absent key) are modelled
as `0`, matching pandas' NaN-skipping summation; no claim below depends on
the value chosen.
-/

namespace PrepareNetwork

/-- Lookup in an association list by key, returning a default for an absent
key (models pandas `.map` on a Series: a missing key yields NaN, which later
aggregation treats as absent/zero). -/
def alookup (m : List (String × ℚ)) (k : String) (dflt : ℚ) : ℚ :=
  match m.find? (fun p => p.1 = k) with
  | some p => p.2
  | none => dflt

/-- Keys of an association list. -/
def akeys (m : List (String × ℚ)) : List String :=
  m.map Prod.fst

/-- Remove every binding of a key from an association list (models
`dict.pop(k)`'s effect on the dictionary). -/
def aerase (m : List (String × ℚ)) (k : String) : List (String × ℚ) :=
  m.filter (fun p => ¬ p.1 = k)

/-- Split a character list at every occurrence of a separator (the
semantics of Python `str.split(sep)` for a one-character separator). -/
def splitOnChar (sep : Char) : List Char → List (List Char)
  | [] => [[]]
  | c :: cs =>
    if c = sep then [] :: splitOnChar sep cs
    else
      match splitOnChar sep cs with
      | [] => [[c]]
      | g :: gs => (c :: g) :: gs

/-- String split on a one-character separator, via the underlying character
list (kernel-computable, unlike `String.splitOn`). -/
def strSplit (s : String) (sep : Char) : List String :=
  (splitOnChar sep s.data).map String.mk

/-- Kernel-computable `str.startswith`. -/
def strStartsWith (s pre : String) : Bool :=
  pre.data.isPrefixOf s.data

/-- Kernel-computable `str.endswith`. -/
def strEndsWith (s suf : String) : Bool :=
  suf.data.isSuffixOf s.data

/-- Kernel-computable drop of the last `k` characters. -/
def strDropRight (s : String) (k : Nat) : String :=
  String.mk (s.data.take (s.data.length - k))

/-- Value of a digit string. -/
def digitsToNat (l : List Char) : Nat :=
  l.foldl (fun acc c => acc * 10 + (c.toNat - Char.toNat '0')) 0

/-- Kernel-computable `int()` on non-negative decimal literals. -/
def strToNat (s : String) : Option Nat :=
  if !s.data.isEmpty && s.data.all Char.isDigit then some (digitsToNat s.data)
  else none

/-- Consecutive buckets of size `k` (models pandas `resample` with a fixed
offset on a gapless hourly index: the snapshots are grouped into consecutive
groups of `k`, the last group possibly shorter).  `k = 0` never arises (a
zero-length resample offset is rejected by pandas). -/
def chunks {α : Type} : Nat → List α → List (List α)
  | _, [] => []
  | 0, _ :: _ => []
  | k + 1, x :: xs => ((x :: xs).take (k + 1)) :: chunks (k + 1) (xs.drop k)
termination_by _ l => l.length
decreasing_by
  simp only [List.length_drop, List.length_cons]
  omega

@[simp] theorem chunks_nil {α : Type} (k : Nat) : chunks k ([] : List α) = [] := by
  cases k <;> simp [chunks]

/-- Buckets of a nonempty list with positive bucket size: first bucket plus
the buckets of the rest. -/
theorem chunks_cons {α : Type} {k : Nat} (hk : 0 < k) {l : List α} (hl : l ≠ []) :
    chunks k l = l.take k :: chunks k (l.drop k) := by
  rcases k with _ | k
  · exact absurd rfl (Nat.pos_iff_ne_zero.mp hk)
  · rcases l with _ | ⟨x, xs⟩
    · exact absurd rfl hl
    · rw [chunks]
      simp [List.drop_succ_cons]

/-- The buckets partition the input: concatenating them restores the list. -/
theorem chunks_flatten {α : Type} (k : Nat) (hk : 0 < k) (l : List α) :
    (chunks k l).flatten = l := by
  have main : ∀ (n : Nat) (l : List α), l.length ≤ n → (chunks k l).flatten = l := by
    intro n
    induction n with
    | zero =>
      intro l h
      have : l = [] := List.length_eq_zero.mp (Nat.le_zero.mp h)
      simp [this]
    | succ n ih =>
      intro l h
      by_cases hl : l = []
      · simp [hl]
      · rw [chunks_cons hk hl, List.flatten_cons]
        have hlen : (l.drop k).length ≤ n := by
          have h1 : 0 < l.length := List.length_pos.mpr hl
          simp only [List.length_drop]
          omega
        rw [ih _ hlen, List.take_append_drop]
  exact main l.length l (Nat.le_refl _)

/-- Summing bucket sums conserves the total sum (pandas
`resample(offset).sum()` conserves the column total). -/
theorem chunks_sum (k : Nat) (hk : 0 < k) (l : List ℚ) :
    ((chunks k l).map List.sum).sum = l.sum := by
  have main : ∀ (n : Nat) (l : List ℚ),
      l.length ≤ n → ((chunks k l).map List.sum).sum = l.sum := by
    intro n
    induction n with
    | zero =>
      intro l h
      have : l = [] := List.length_eq_zero.mp (Nat.le_zero.mp h)
      simp [this]
    | succ n ih =>
      intro l h
      by_cases hl : l = []
      · simp [hl]
      · rw [chunks_cons hk hl]
        simp only [List.map_cons, List.sum_cons]
        have hlen : (l.drop k).length ≤ n := by
          have h1 : 0 < l.length := List.length_pos.mpr hl
          simp only [List.length_drop]
          omega
        rw [ih _ hlen, ← List.sum_append, List.take_append_drop]
  exact main l.length l (Nat.le_refl _)

/-- Arithmetic mean of each bucket (pandas `resample(offset).mean()` on one
column; buckets produced by `chunks` are never empty, so no NaN arises). -/
def bucketMeans (k : Nat) (l : List ℚ) : List ℚ :=
  (chunks k l).map (fun b => b.sum / (b.length : ℚ))

/-- Bucket-mean resampling of a whole time-varying table (the source skips
empty tables, leaving them empty; mapping over an empty column list is the
identity, so the two cases coincide). -/
def resampleMeanTable (k : Nat) (t : List (String × List ℚ)) :
    List (String × List ℚ) :=
  t.map (fun c => (c.1, bucketMeans k c.2))

/-- Bucket-sum resampling of the snapshot-weightings column
(`n.snapshot_weightings.resample(offset).sum()`). -/
def resampleSum (k : Nat) (l : List ℚ) : List ℚ :=
  (chunks k l).map List.sum

/-- One row of `n.buses`. -/
structure Bus where
  name : String
  v_nom : ℚ
  country : String
  deriving DecidableEq

/-- One row of `n.line_types` (only the rated current is used here). -/
structure LineType where
  name : String
  i_nom : ℚ
  deriving DecidableEq

/-- One row of `n.lines` (the attributes `prepare_network.py` touches). -/
structure Line where
  name : String
  type : String
  bus0 : String
  bus1 : String
  s_nom : ℚ
  s_nom_min : ℚ
  s_nom_max : ℚ
  s_nom_extendable : Bool
  s_max_pu : ℚ
  capital_cost : ℚ
  length : ℚ
  num_parallel : ℚ
  deriving DecidableEq

/-- One row of `n.links`. -/
structure Link where
  name : String
  carrier : String
  bus0 : String
  bus1 : String
  p_nom : ℚ
  p_nom_min : ℚ
  p_nom_max : ℚ
  p_nom_extendable : Bool
  capital_cost : ℚ
  marginal_cost : ℚ
  length : ℚ
  deriving DecidableEq

/-- One row of `n.generators`. -/
structure Generator where
  name : String
  carrier : String
  efficiency : ℚ
  marginal_cost : ℚ
  capital_cost : ℚ
  p_nom_max : ℚ
  deriving DecidableEq

/-- One row of `n.storage_units`. -/
structure StorageUnit where
  name : String
  carrier : String
  efficiency_dispatch : ℚ
  marginal_cost : ℚ
  capital_cost : ℚ
  p_nom_max : ℚ
  deriving DecidableEq

/-- One row of `n.stores`. -/
structure Store where
  name : String
  carrier : String
  marginal_cost : ℚ
  capital_cost : ℚ
  deriving DecidableEq

/-- One row of `n.carriers`.  `co2_emissions` is the standard emission
intensity column; `gas_usage` is the ad-hoc column created by
`add_gaslimit` — a carrier the source never selected has no value there
(pandas NaN), which downstream summation treats as 0, so the unset value is
modelled as `0`. -/
structure Carrier where
  name : String
  co2_emissions : ℚ
  gas_usage : ℚ
  deriving DecidableEq

/-- One row of `n.global_constraints` as produced by `n.add`. -/
structure GlobalConstraint where
  name : String
  type : String
  carrier_attribute : String
  sense : String
  constant : ℚ
  deriving DecidableEq

/-- The PyPSA network: static tables, snapshots with their weightings, and
the time-varying tables `prepare_network.py` reads or writes.  Snapshot
labels are hours (`ℚ`) on a gapless hourly index; a time-varying table is a
list of `(entity name, one value per snapshot)` columns. -/
structure Network where
  buses : List Bus
  line_types : List LineType
  lines : List Line
  links : List Link
  generators : List Generator
  storage_units : List StorageUnit
  stores : List Store
  carriers : List Carrier
  global_constraints : List GlobalConstraint
  snapshots : List ℚ
  snapshot_weightings : List ℚ
  generators_t_marginal_cost : List (String × List ℚ)
  generators_t_p_max_pu : List (String × List ℚ)
  loads_t_p_set : List (String × List ℚ)
  storage_units_t_inflow : List (String × List ℚ)
  lines_t_s_max_pu : List (String × List ℚ)
  links_t_p_max_pu : List (String × List ℚ)
  deriving DecidableEq

/-- Embeds `add_co2limit(n, co2limit, Nyears)`: append one global constraint
on the `co2_emissions` carrier attribute. -/
def add_co2limit (n : Network) (co2limit : ℚ) (Nyears : ℚ) : Network :=
  { n with global_constraints := n.global_constraints ++
      [{ name := "CO2Limit", type := "", carrier_attribute := "co2_emissions",
         sense := "<=", constant := co2limit * Nyears }] }

/-- The gas-consuming carriers selected by `add_gaslimit`
(`n.carriers.index.intersection(["OCGT", "CCGT", "CHP"])`). -/
def gasCarriers : List String := ["OCGT", "CCGT", "CHP"]

/-- Embeds `add_gaslimit(n, gaslimit, Nyears)`: write `gas_usage = 1.0` on
the carriers intersecting `{OCGT, CCGT, CHP}` (other rows keep their
previous `gas_usage`), then append one global constraint on that
attribute. -/
def add_gaslimit (n : Network) (gaslimit : ℚ) (Nyears : ℚ) : Network :=
  { n with
    carriers := n.carriers.map (fun c =>
      if c.name ∈ gasCarriers then { c with gas_usage := 1 } else c),
    global_constraints := n.global_constraints ++
      [{ name := "GasLimit", type := "", carrier_attribute := "gas_usage",
         sense := "<=", constant := gaslimit * Nyears }] }

/-- Per-carrier emission price `ep`: the row sum of
`pd.Series(emission_prices).rename(x -> x + "_emissions") *
n.carriers.filter(like="_emissions")`.  The carriers table has the single
emission column `co2_emissions`, so every price-map key other than `"co2"`
matches no column; its product is NaN and `.sum(axis=1)` drops it. -/
def epOf (emission_prices : List (String × ℚ)) (c : Carrier) : ℚ :=
  (emission_prices.map (fun kp =>
    if kp.1 = "co2" then kp.2 * c.co2_emissions else 0)).sum

/-- Lookup of `ep` by carrier name (`Series.map(ep)` through a carriers
row). -/
def carrierEp (n : Network) (emission_prices : List (String × ℚ))
    (carrier : String) : ℚ :=
  match n.carriers.find? (fun c => c.name = carrier) with
  | some c => epOf emission_prices c
  | none => 0

/-- Per-generator marginal-cost increment `gen_ep`, looked up by generator
name (used to add `gen_ep[columns]` onto the time-varying table). -/
def genEpByName (n : Network) (emission_prices : List (String × ℚ))
    (gname : String) : ℚ :=
  match n.generators.find? (fun g => g.name = gname) with
  | some g => carrierEp n emission_prices g.carrier / g.efficiency
  | none => 0

/-- Body of `add_emission_prices` after the optional `pop`: bump every
generator's static marginal cost by `gen_ep`, bump each existing column of
`n.generators_t["marginal_cost"]` by the same per-generator increment, and
bump every storage unit's static marginal cost by `ep / efficiency_dispatch`
(storage time-varying tables are untouched). -/
def applyEmissionPrices (n : Network)
    (emission_prices : List (String × ℚ)) : Network :=
  { n with
    generators := n.generators.map (fun g =>
      { g with marginal_cost :=
          g.marginal_cost + carrierEp n emission_prices g.carrier / g.efficiency }),
    generators_t_marginal_cost := n.generators_t_marginal_cost.map (fun col =>
      (col.1, col.2.map (fun v => v + genEpByName n emission_prices col.1))),
    storage_units := n.storage_units.map (fun su =>
      { su with marginal_cost :=
          su.marginal_cost +
            carrierEp n emission_prices su.carrier / su.efficiency_dispatch }) }

/-- Embeds `add_emission_prices(n, emission_prices, exclude_co2)` acting on
the network.  `exclude_co2` triggers `emission_prices.pop("co2")`, which
raises `KeyError` when the key is absent; the aliasing consequences of that
`pop` on the shared default dictionary are modelled separately by
`add_emission_prices_call`. -/
def add_emission_prices (n : Network) (emission_prices : List (String × ℚ))
    (exclude_co2 : Bool) : Except String Network :=
  if exclude_co2 then
    if "co2" ∈ akeys emission_prices then
      Except.ok (applyEmissionPrices n (aerase emission_prices "co2"))
    else
      Except.error "KeyError: co2"
  else
    Except.ok (applyEmissionPrices n emission_prices)

/-- Call-level model of the Python binding of
`def add_emission_prices(n, emission_prices={"co2": 0.0}, exclude_co2=False)`.
The default price map is a single dictionary object created once at function
definition time; a call that omits the argument binds the parameter to that
very object (no copy), so `emission_prices.pop("co2")` mutates it in place.
Explicit state passing makes the mutation visible: the input is the current
value of the shared default object, `arg` is the caller-supplied dictionary
(if any), and the result carries the default object's post-call value, the
price map the body then uses, and the caller's dictionary's post-call value.
`pop` on an absent key raises `KeyError`. -/
def add_emission_prices_call (default_prices : List (String × ℚ))
    (arg : Option (List (String × ℚ))) (exclude_co2 : Bool) :
    Except String
      (List (String × ℚ) × List (String × ℚ) × Option (List (String × ℚ))) :=
  let m := arg.getD default_prices
  if exclude_co2 then
    if "co2" ∈ akeys m then
      let m1 := aerase m "co2"
      match arg with
      | none => Except.ok (m1, m1, none)
      | some _ => Except.ok (default_prices, m1, some m1)
    else
      Except.error "KeyError: co2"
  else
    Except.ok (default_prices, m, arg)

/-- Exact rational value of the IEEE-754 double `np.sqrt(3)` used in the
thermal-capacity formula. -/
def sqrt3 : ℚ := 3900231685776981 / 2251799813685248

/-- The transmission-limit factor: the wildcard is either the sentinel string
`"opt"` or a string `float()` parses to a number. -/
inductive LLFactor where
  | opt : LLFactor
  | num : ℚ → LLFactor
  deriving DecidableEq

/-- Cost assumptions consumed by the capital-cost refresh. -/
structure Costs where
  hvac_cost_per_length : ℚ
  hvdc_cost_per_length : ℚ
  deriving DecidableEq

/-- Modelled from the spec: `update_transmission_costs(n, costs)` (defined in
the repository's `add_electricity` module, which is not under `src/`)
"refreshes transmission capital costs from the cost table" (spec 4.3 step 3)
— it rewrites the capital cost of every line and every DC link from the cost
table and touches nothing else. -/
def update_transmission_costs (n : Network) (costs : Costs) : Network :=
  { n with
    lines := n.lines.map (fun l =>
      { l with capital_cost := l.length * costs.hvac_cost_per_length }),
    links := n.links.map (fun l =>
      if l.carrier = "DC" then
        { l with capital_cost := l.length * costs.hvdc_cost_per_length }
      else l) }

/-- Effective line capacity `lines_s_nom`: `s_nom` where the line has no
type, otherwise the thermal capacity
`sqrt(3) * i_nom(type) * num_parallel * v_nom(bus0)`
(`n.lines.s_nom.where(n.lines.type == "", _lines_s_nom)`). -/
def lines_s_nom (n : Network) (l : Line) : ℚ :=
  if l.type = "" then l.s_nom
  else
    sqrt3 *
      alookup (n.line_types.map (fun t => (t.name, t.i_nom))) l.type 0 *
      l.num_parallel *
      alookup (n.buses.map (fun b => (b.name, b.v_nom))) l.bus0 0

/-- The `col` series of `set_transmission_limit`: `capital_cost` for the cost
limit kind `"c"`, `length` otherwise. -/
def lineCol (ll_type : String) (l : Line) : ℚ :=
  if ll_type = "c" then l.capital_cost else l.length

/-- Link counterpart of `lineCol`. -/
def linkCol (ll_type : String) (l : Link) : ℚ :=
  if ll_type = "c" then l.capital_cost else l.length

/-- Reference quantity `ref = lines_s_nom @ n.lines[col] +
links.p_nom @ links[col]` over the DC links, computed on the pre-call
capital costs (the refresh runs after `ref`). -/
def transmissionRef (n : Network) (ll_type : String) : ℚ :=
  (n.lines.map (fun l => lines_s_nom n l * lineCol ll_type l)).sum +
    ((n.links.filter (fun l => l.carrier = "DC")).map
      (fun l => l.p_nom * linkCol ll_type l)).sum

/-- The extendability condition `factor == "opt" or float(factor) > 1.0`. -/
def extendCond : LLFactor → Bool
  | .opt => true
  | .num q => q > 1

/-- The constraint condition `factor != "opt"`. -/
def constraintCond : LLFactor → Bool
  | .opt => false
  | .num _ => true

/-- Numeric value `float(factor)`; only ever read when
`constraintCond` holds, i.e. on `num`. -/
def factorVal : LLFactor → ℚ
  | .opt => 0
  | .num q => q

/-- Embeds `set_transmission_limit(n, ll_type, factor, costs, Nyears)`.
`ref` and the effective line capacities are computed from the pre-call
network; the capital-cost refresh only rewrites `capital_cost`, so mapping
the marking over the refreshed lines reads the same `type`, `s_nom`,
`num_parallel` and `bus0` values the source precomputed. -/
def set_transmission_limit (n : Network) (ll_type : String) (factor : LLFactor)
    (costs : Costs) : Network :=
  let ref := transmissionRef n ll_type
  let n1 := update_transmission_costs n costs
  let n2 :=
    if extendCond factor then
      { n1 with
        lines := n1.lines.map (fun l =>
          { l with s_nom_min := lines_s_nom n l, s_nom_extendable := true }),
        links := n1.links.map (fun l =>
          if l.carrier = "DC" then
            { l with p_nom_min := l.p_nom, p_nom_extendable := true }
          else l) }
    else n1
  if constraintCond factor then
    let con_type := if ll_type = "c" then "expansion_cost" else "volume_expansion"
    { n2 with global_constraints := n2.global_constraints ++
        [{ name := "l" ++ ll_type ++ "_limit",
           type := "transmission_" ++ con_type ++ "_limit",
           sense := "<=",
           constant := factorVal factor * ref,
           carrier_attribute := "AC, DC" }] }
  else n2

/-- Models a possibly-infinite configured bound: `none` is `np.inf` (the
source's default), `some q` a finite value. -/
def isFinitePos : Option ℚ → Bool
  | none => false
  | some q => q > 0

/-- `Series.clip(upper=u)`: cap at `u`; clipping at `np.inf` is the
identity. -/
def clipUpper (v : ℚ) : Option ℚ → ℚ
  | none => v
  | some u => min v u

/-- Embeds `set_line_nom_max(n, s_nom_max_set, p_nom_max_set, s_nom_max_ext,
p_nom_max_ext)`: when a finite positive extension budget is given, first
raise `s_nom_max` (resp. DC links' `p_nom_max`) to current capacity plus the
budget; then clip every line's `s_nom_max` and every link's `p_nom_max` at
the absolute ceilings. -/
def set_line_nom_max (n : Network) (s_nom_max_set p_nom_max_set
    s_nom_max_ext p_nom_max_ext : Option ℚ) : Network :=
  let n1 :=
    if isFinitePos s_nom_max_ext then
      { n with lines := n.lines.map (fun l =>
          { l with s_nom_max := l.s_nom + s_nom_max_ext.getD 0 }) }
    else n
  let n2 :=
    if isFinitePos p_nom_max_ext then
      { n1 with links := n1.links.map (fun l =>
          if l.carrier = "DC" then
            { l with p_nom_max := l.p_nom + p_nom_max_ext.getD 0 }
          else l) }
    else n1
  { n2 with
    lines := n2.lines.map (fun l =>
      { l with s_nom_max := clipUpper l.s_nom_max s_nom_max_set }),
    links := n2.links.map (fun l =>
      { l with p_nom_max := clipUpper l.p_nom_max p_nom_max_set }) }

/-- Country of a bus, looked up by name (`Series.map(n.buses.country)`). -/
def busCountry (n : Network) (bus : String) : String :=
  match n.buses.find? (fun b => b.name = bus) with
  | some b => b.country
  | none => ""

/-- Embeds `enforce_autarky(n, only_crossborder)`: select the lines and
links to remove — those whose endpoint countries differ when restricted to
cross-border assets, otherwise every line and every DC link — and `mremove`
them together with their time-series columns. -/
def enforce_autarky (n : Network) (only_crossborder : Bool) : Network :=
  let lineRemoved : Line → Bool := fun l =>
    if only_crossborder then ¬ busCountry n l.bus0 = busCountry n l.bus1
    else true
  let linkRemoved : Link → Bool := fun l =>
    if only_crossborder then ¬ busCountry n l.bus0 = busCountry n l.bus1
    else l.carrier = "DC"
  let keptLines := n.lines.filter (fun l => ¬ lineRemoved l)
  let keptLinks := n.links.filter (fun l => ¬ linkRemoved l)
  { n with
    lines := keptLines,
    links := keptLinks,
    lines_t_s_max_pu := n.lines_t_s_max_pu.filter
      (fun col => (keptLines.map Line.name).contains col.1),
    links_t_p_max_pu := n.links_t_p_max_pu.filter
      (fun col => (keptLinks.map Link.name).contains col.1) }

/-- Embeds `average_every_nhours(n, offset)` with `offset = f"{k}h"` on a
gapless hourly snapshot index: the returned copy has one snapshot per
bucket (labelled by the bucket's first snapshot), snapshot weightings summed
within each bucket, every time-varying table aggregated by arithmetic mean
within each bucket (an empty table stays empty: mapping over no columns),
and all static tables copied unchanged. -/
def average_every_nhours (n : Network) (k : Nat) : Network :=
  { n with
    snapshots := (chunks k n.snapshots).map List.headI,
    snapshot_weightings := resampleSum k n.snapshot_weightings,
    generators_t_marginal_cost := resampleMeanTable k n.generators_t_marginal_cost,
    generators_t_p_max_pu := resampleMeanTable k n.generators_t_p_max_pu,
    loads_t_p_set := resampleMeanTable k n.loads_t_p_set,
    storage_units_t_inflow := resampleMeanTable k n.storage_units_t_inflow,
    lines_t_s_max_pu := resampleMeanTable k n.lines_t_s_max_pu,
    links_t_p_max_pu := resampleMeanTable k n.links_t_p_max_pu }

/-- Modelled from the spec: the external `tsam.TimeSeriesAggregation`
collaborator (spec 4.1: "Invoke the external aggregation algorithm
requesting exactly the given number of segments"), invoked with
`hoursPerPeriod = len(raw)` and `noTypicalPeriods = 1`, partitions the
snapshot range into the requested number of consecutive segments whose
durations sum to the number of snapshots; modelled as `segments - 1` unit
segments followed by one remainder segment. -/
def tsamSegmentDurations (nSnaps segments : Nat) : List Nat :=
  List.replicate (segments - 1) 1 ++ [nSnaps - (segments - 1)]

/-- Start index of each segment: the cumulative duration of the preceding
segments (`np.insert(np.cumsum(weightings[:-1]), 0, 0)`). -/
def segStarts (durations : List Nat) : List Nat :=
  (List.range durations.length).map (fun i => (durations.take i).sum)

/-- Per-column maximum used as normalization factor (`df.max()`). -/
def colMax (l : List ℚ) : ℚ := l.foldr max 0

/-- Modelled from the spec: the representative value the collaborator
returns for each segment (spec 9: "output: segment durations +
representative values"); modelled as the value at the segment's first
snapshot. -/
def segRepValues (durations : List Nat) (col : List ℚ) : List ℚ :=
  (segStarts durations).map (fun st => col.getD st 0)

/-- Normalize a table by per-column maxima, take the collaborator's
representative segment values, and de-normalize with the stored maxima
(`segmented[cols] * norm`). -/
def segTable (durations : List Nat) (t : List (String × List ℚ)) :
    List (String × List ℚ) :=
  t.map (fun c =>
    let norm := colMax c.2
    (c.1, (segRepValues durations (c.2.map (fun v => v / norm))).map
      (fun v => v * norm)))

/-- Embeds `apply_time_segmentation(n, segments)`: obtain the segment
durations from the aggregation collaborator, relabel the snapshots by
offsetting the first original snapshot by the cumulative preceding duration
(in hours), set the snapshot weightings to the segment durations, and
replace the three migrated series classes (generator availability, load,
storage inflow) by the de-normalized representative values.  All other
time-varying tables are not migrated. -/
def apply_time_segmentation (n : Network) (segments : Nat) : Network :=
  let durations := tsamSegmentDurations n.snapshots.length segments
  let offsets := segStarts durations
  { n with
    snapshots := offsets.map (fun o : Nat => n.snapshots.headI + (o : ℚ)),
    snapshot_weightings := durations.map (fun d : Nat => (d : ℚ)),
    generators_t_p_max_pu := segTable durations n.generators_t_p_max_pu,
    loads_t_p_set := segTable durations n.loads_t_p_set,
    storage_units_t_inflow := segTable durations n.storage_units_t_inflow }

/-- Modelled from the spec: `_helpers.get_opt` (not under `src/`) returns
the first option token matching the pattern (spec 6: "Option tokens may
arrive as a dash-separated list of short codes parsed with pattern
matching"). -/
def get_opt (opts : List String) (matched : String → Bool) : Option String :=
  opts.find? matched

/-- Recognizer for the averaging pattern `^\d+h$`. -/
def isHoursToken (s : String) : Bool :=
  strEndsWith s "h" && !(strDropRight s 1).isEmpty &&
    (strDropRight s 1).data.all Char.isDigit

/-- Recognizer for the segmentation pattern `^\d+seg$`. -/
def isSegToken (s : String) : Bool :=
  strEndsWith s "seg" && !(strDropRight s 3).isEmpty &&
    (strDropRight s 3).data.all Char.isDigit

/-- Bucket size parsed from an hours token. -/
def hoursOfToken (s : String) : Nat := (strToNat (strDropRight s 1)).getD 0

/-- Segment count parsed from a segmentation token (`int(segments)`). -/
def segsOfToken (s : String) : Nat := (strToNat (strDropRight s 3)).getD 0

/-- Embeds the orchestrator's temporal-reduction stage (the two independent
`if` blocks of `__main__`): `nhours = nhours_wildcard or nhours_config`
selects averaging, `time_seg = time_seg_wildcard or time_seg_config`
selects segmentation (falsy config values are `none`; config values are
modelled as tokens of the same shape as the wildcards).  Returns the
transformed network together with which of the two reductions fired. -/
def temporalStage (opts : List String) (cfgRes cfgSeg : Option String)
    (n : Network) : Network × Bool × Bool :=
  let nhours := (get_opt opts isHoursToken).orElse (fun _ => cfgRes)
  let time_seg := (get_opt opts isSegToken).orElse (fun _ => cfgSeg)
  let n1 := match nhours with
    | some tok => average_every_nhours n (hoursOfToken tok)
    | none => n
  let n2 := match time_seg with
    | some tok => apply_time_segmentation n1 (segsOfToken tok)
    | none => n1
  (n2, nhours.isSome, time_seg.isSome)

/-- Substring containment, used for the pandas `Series.str.contains` row
selection (carrier tokens are plain strings, so the regex reading coincides
with substring containment). -/
def containsSubstrB (hay pat : String) : Bool :=
  (List.range (hay.data.length + 1)).any
    (fun i => pat.data.isPrefixOf (hay.data.drop i))

/-- The `attr_lookup` dictionary
`{"p": "p_nom_max", "c": "capital_cost", "m": "marginal_cost"}`; a key
outside it raises `KeyError`. -/
def attr_lookup (code : Char) : Option String :=
  if code = 'p' then some "p_nom_max"
  else if code = 'c' then some "capital_cost"
  else if code = 'm' then some "marginal_cost"
  else none

/-- Decimal literals accepted by `float()` in the factor position of a
scaling token (`\d*\.?\d+`); other inputs raise `ValueError`. -/
def parseRat (s : String) : Option ℚ :=
  match strSplit s '.' with
  | [a] =>
    if !a.isEmpty && a.data.all Char.isDigit then
      some ((digitsToNat a.data : ℚ))
    else none
  | [a, b] =>
    if !b.isEmpty && a.data.all Char.isDigit && b.data.all Char.isDigit then
      some ((digitsToNat (a.data ++ b.data) : ℚ) / ((10 : ℚ) ^ b.data.length))
    else none
  | _ => none

/-- Scale one generator attribute (all three looked-up columns exist on
generators). -/
def genScale (attr : String) (factor : ℚ) (g : Generator) : Generator :=
  if attr = "p_nom_max" then { g with p_nom_max := g.p_nom_max * factor }
  else if attr = "capital_cost" then
    { g with capital_cost := g.capital_cost * factor }
  else { g with marginal_cost := g.marginal_cost * factor }

/-- Scale one link attribute. -/
def linkScale (attr : String) (factor : ℚ) (l : Link) : Link :=
  if attr = "p_nom_max" then { l with p_nom_max := l.p_nom_max * factor }
  else if attr = "capital_cost" then
    { l with capital_cost := l.capital_cost * factor }
  else { l with marginal_cost := l.marginal_cost * factor }

/-- Scale one storage-unit attribute. -/
def suScale (attr : String) (factor : ℚ) (su : StorageUnit) : StorageUnit :=
  if attr = "capital_cost" then
    { su with capital_cost := su.capital_cost * factor }
  else if attr = "marginal_cost" then
    { su with marginal_cost := su.marginal_cost * factor }
  else { su with p_nom_max := su.p_nom_max * factor }

/-- Scale one store attribute (stores have no `p_nom_max` column; that case
is guarded by the caller). -/
def storeScale (attr : String) (factor : ℚ) (st : Store) : Store :=
  if attr = "capital_cost" then
    { st with capital_cost := st.capital_cost * factor }
  else { st with marginal_cost := st.marginal_cost * factor }

/-- Embeds one iteration of the orchestrator's scaling-token loop
(`for o in opts` at the end of `__main__`).  A token without `"+"` is
skipped; otherwise the token is split at `"+"`, and when its head starts
with the leading `"-"`-segment of some carrier, the attribute code (first
character after `"+"`) is looked up — an unknown code raises `KeyError`
carrying that single character — the factor is parsed, and the selected
attribute of every matching row is multiplied by the factor (`"AC"` targets
the lines table directly; columns absent from a targeted table raise
`KeyError`; `iterate_components` skips empty tables). -/
def processToken (n : Network) (o : String) : Except String Network :=
  match strSplit o '+' with
  | [] => Except.ok n
  | [_] => Except.ok n
  | c0 :: a :: _ =>
    let suptechs := n.carriers.map (fun c => (strSplit c.name '-').headI)
    if suptechs.any (fun t => strStartsWith c0 t) then
      if a.isEmpty then Except.error "IndexError"
      else
        match attr_lookup a.front with
        | none => Except.error (String.mk [a.front])
        | some attr =>
          match parseRat (a.drop 1) with
          | none => Except.error ("ValueError: " ++ a.drop 1)
          | some factor =>
            if c0 = "AC" then
              if attr = "capital_cost" then
                Except.ok { n with lines := n.lines.map (fun l =>
                  { l with capital_cost := l.capital_cost * factor }) }
              else Except.error ("KeyError: " ++ attr)
            else
              if attr = "p_nom_max" ∧ ¬ n.stores.isEmpty then
                Except.error ("KeyError: " ++ attr)
              else
                Except.ok { n with
                  generators := n.generators.map (fun g =>
                    if containsSubstrB g.carrier c0 then genScale attr factor g
                    else g),
                  links := n.links.map (fun l =>
                    if containsSubstrB l.carrier c0 then linkScale attr factor l
                    else l),
                  storage_units := n.storage_units.map (fun su =>
                    if containsSubstrB su.carrier c0 then suScale attr factor su
                    else su),
                  stores := n.stores.map (fun st =>
                    if containsSubstrB st.carrier c0 then storeScale attr factor st
                    else st) }
    else Except.ok n

/-- Default `Line` row used with `List.getD`. -/
def defaultLine : Line :=
  { name := "", type := "", bus0 := "", bus1 := "", s_nom := 0, s_nom_min := 0,
    s_nom_max := 0, s_nom_extendable := false, s_max_pu := 0, capital_cost := 0,
    length := 0, num_parallel := 0 }

/-- Default `Link` row used with `List.getD`. -/
def defaultLink : Link :=
  { name := "", carrier := "", bus0 := "", bus1 := "", p_nom := 0,
    p_nom_min := 0, p_nom_max := 0, p_nom_extendable := false,
    capital_cost := 0, marginal_cost := 0, length := 0 }

/-- Default `Generator` row used with `List.getD`. -/
def defaultGen : Generator :=
  { name := "", carrier := "", efficiency := 1, marginal_cost := 0,
    capital_cost := 0, p_nom_max := 0 }

/-- Default `StorageUnit` row used with `List.getD`. -/
def defaultSU : StorageUnit :=
  { name := "", carrier := "", efficiency_dispatch := 1, marginal_cost := 0,
    capital_cost := 0, p_nom_max := 0 }

/-- Default time-varying column used with `List.getD`. -/
def defaultCol : String × List ℚ := ("", [])

/-- Small concrete network used to witness the universally quantified
theorems: two countries, one typeless line, one DC and one AC link, one
solar generator with a matching carrier row, one storage unit, hourly
snapshots. -/
def exampleNetwork : Network :=
  { buses := [{ name := "b1", v_nom := 380, country := "DE" },
              { name := "b2", v_nom := 380, country := "FR" }],
    line_types := [{ name := "t1", i_nom := 2 }],
    lines := [{ name := "l1", type := "", bus0 := "b1", bus1 := "b2",
                s_nom := 10, s_nom_min := 0, s_nom_max := 10,
                s_nom_extendable := false, s_max_pu := 1, capital_cost := 4,
                length := 100, num_parallel := 1 }],
    links := [{ name := "k1", carrier := "DC", bus0 := "b1", bus1 := "b2",
                p_nom := 5, p_nom_min := 0, p_nom_max := 5,
                p_nom_extendable := false, capital_cost := 3,
                marginal_cost := 0, length := 50 },
              { name := "k2", carrier := "AC", bus0 := "b1", bus1 := "b1",
                p_nom := 2, p_nom_min := 0, p_nom_max := 2,
                p_nom_extendable := false, capital_cost := 1,
                marginal_cost := 0, length := 10 }],
    generators := [{ name := "g1", carrier := "solar", efficiency := 1/2,
                     marginal_cost := 3, capital_cost := 5, p_nom_max := 7 }],
    storage_units := [{ name := "s1", carrier := "hydro",
                        efficiency_dispatch := 1/2, marginal_cost := 1,
                        capital_cost := 1, p_nom_max := 1 }],
    stores := [],
    carriers := [{ name := "solar", co2_emissions := 0, gas_usage := 0 },
                 { name := "OCGT", co2_emissions := 2, gas_usage := 0 },
                 { name := "hydro", co2_emissions := 0, gas_usage := 0 }],
    global_constraints := [],
    snapshots := [0, 1, 2],
    snapshot_weightings := [1, 1, 1],
    generators_t_marginal_cost := [("g1", [3, 3, 3])],
    generators_t_p_max_pu := [("g1", [1, 1/2, 1])],
    loads_t_p_set := [],
    storage_units_t_inflow := [],
    lines_t_s_max_pu := [("l1", [7, 7, 7])],
    links_t_p_max_pu := [] }

/-- A table `tnew` is the bucket-mean aggregation of `told`: same columns in
the same order, each output column equal to the per-bucket arithmetic means
of the input column, and the buckets partition the input column. -/
def meanAggregated (k : Nat) (told tnew : List (String × List ℚ)) : Prop :=
  tnew.length = told.length ∧
  ∀ i (h1 : i < told.length) (h2 : i < tnew.length),
    (tnew.get ⟨i, h2⟩).1 = (told.get ⟨i, h1⟩).1 ∧
    (tnew.get ⟨i, h2⟩).2 = bucketMeans k (told.get ⟨i, h1⟩).2 ∧
    (chunks k (told.get ⟨i, h1⟩).2).flatten = (told.get ⟨i, h1⟩).2

/-- The table produced by `resampleMeanTable` is the bucket-mean aggregation
of its input. -/
theorem meanAggregated_resampleMeanTable (k : Nat) (hk : 0 < k)
    (t : List (String × List ℚ)) :
    meanAggregated k t (resampleMeanTable k t) := by
  refine ⟨by simp [resampleMeanTable], ?_⟩
  intro i h1 h2
  have hget : (resampleMeanTable k t).get ⟨i, h2⟩ =
      ((t.get ⟨i, h1⟩).1, bucketMeans k (t.get ⟨i, h1⟩).2) := by
    simp [resampleMeanTable, List.get_eq_getElem, List.getElem_map]
  rw [hget]
  exact ⟨rfl, rfl, chunks_flatten k hk _⟩

/-- C2: for every network and every positive bucket size,
`average_every_nhours` returns a network whose snapshot weightings sum to
the input weightings' sum (weightings are summed within each bucket), in
which every time-varying table is replaced by the per-bucket arithmetic
means of its values (the buckets partitioning the input; an empty table
stays empty), and whose static tables are copied unchanged. -/
theorem average_every_nhours_spec (n : Network) (k : Nat) (hk : 0 < k) :
    (average_every_nhours n k).snapshot_weightings.sum =
      n.snapshot_weightings.sum ∧
    meanAggregated k n.generators_t_marginal_cost
      (average_every_nhours n k).generators_t_marginal_cost ∧
    meanAggregated k n.generators_t_p_max_pu
      (average_every_nhours n k).generators_t_p_max_pu ∧
    meanAggregated k n.loads_t_p_set
      (average_every_nhours n k).loads_t_p_set ∧
    meanAggregated k n.storage_units_t_inflow
      (average_every_nhours n k).storage_units_t_inflow ∧
    meanAggregated k n.lines_t_s_max_pu
      (average_every_nhours n k).lines_t_s_max_pu ∧
    meanAggregated k n.links_t_p_max_pu
      (average_every_nhours n k).links_t_p_max_pu ∧
    (average_every_nhours n k).buses = n.buses ∧
    (average_every_nhours n k).line_types = n.line_types ∧
    (average_every_nhours n k).lines = n.lines ∧
    (average_every_nhours n k).links = n.links ∧
    (average_every_nhours n k).generators = n.generators ∧
    (average_every_nhours n k).storage_units = n.storage_units ∧
    (average_every_nhours n k).stores = n.stores ∧
    (average_every_nhours n k).carriers = n.carriers ∧
    (average_every_nhours n k).global_constraints = n.global_constraints := by
  refine ⟨?_, ?_, ?_, ?_, ?_, ?_, ?_, rfl, rfl, rfl, rfl, rfl, rfl, rfl, rfl, rfl⟩
  · show (resampleSum k n.snapshot_weightings).sum = n.snapshot_weightings.sum
    exact chunks_sum k hk n.snapshot_weightings
  all_goals exact meanAggregated_resampleMeanTable k hk _

/-- Witness for C2: the hypothesis `0 < k` holds at `k = 2`, where the
theorem yields weighting-sum conservation on the example network. -/
theorem average_every_nhours_spec_witness :
    0 < 2 ∧
    (average_every_nhours exampleNetwork 2).snapshot_weightings.sum =
      exampleNetwork.snapshot_weightings.sum :=
  ⟨by decide, (average_every_nhours_spec exampleNetwork 2 (by decide)).1⟩

/-- CO2-emission intensity of a carrier, looked up by name. -/
def carrierCo2 (n : Network) (carrier : String) : ℚ :=
  match n.carriers.find? (fun c => c.name = carrier) with
  | some c => c.co2_emissions
  | none => 0

/-- With a single CO2 price `p` the per-carrier price contribution reduces
to `p` times the carrier's CO2 intensity. -/
theorem carrierEp_single_co2 (n : Network) (p : ℚ) (carrier : String) :
    carrierEp n [("co2", p)] carrier = p * carrierCo2 n carrier := by
  unfold carrierEp carrierCo2
  cases n.carriers.find? (fun c => c.name = carrier) with
  | none => simp
  | some c => simp [epOf]

/-- C4: `add_emission_prices` with a single CO2 price `p` (and
`exclude_co2 = false`) increases each generator's static marginal cost by
exactly `p * c / e` (`c` the CO2 intensity of its carrier, `e` its
efficiency), adds the per-generator increment to the time-varying
marginal-cost table only for the columns already present there (the column
set is unchanged), and increases each storage unit's static marginal cost
by the carrier price sum divided by its discharge efficiency, leaving the
storage time-varying table unchanged. -/
theorem add_emission_prices_single_co2_spec (n : Network) (p : ℚ) :
    add_emission_prices n [("co2", p)] false =
      Except.ok (applyEmissionPrices n [("co2", p)]) ∧
    (∀ i, i < n.generators.length →
      i < (applyEmissionPrices n [("co2", p)]).generators.length →
      ((applyEmissionPrices n [("co2", p)]).generators.getD i defaultGen).marginal_cost =
        (n.generators.getD i defaultGen).marginal_cost +
          p * carrierCo2 n (n.generators.getD i defaultGen).carrier /
            (n.generators.getD i defaultGen).efficiency) ∧
    (applyEmissionPrices n [("co2", p)]).generators_t_marginal_cost.map Prod.fst =
      n.generators_t_marginal_cost.map Prod.fst ∧
    (∀ i, i < n.generators_t_marginal_cost.length →
      i < (applyEmissionPrices n [("co2", p)]).generators_t_marginal_cost.length →
      ((applyEmissionPrices n [("co2", p)]).generators_t_marginal_cost.getD i defaultCol).2 =
        ((n.generators_t_marginal_cost.getD i defaultCol).2).map
          (fun v => v +
            genEpByName n [("co2", p)]
              (n.generators_t_marginal_cost.getD i defaultCol).1)) ∧
    (∀ i, i < n.storage_units.length →
      i < (applyEmissionPrices n [("co2", p)]).storage_units.length →
      ((applyEmissionPrices n [("co2", p)]).storage_units.getD i defaultSU).marginal_cost =
        (n.storage_units.getD i defaultSU).marginal_cost +
          p * carrierCo2 n (n.storage_units.getD i defaultSU).carrier /
            (n.storage_units.getD i defaultSU).efficiency_dispatch) ∧
    (applyEmissionPrices n [("co2", p)]).storage_units_t_inflow =
      n.storage_units_t_inflow := by
  refine ⟨rfl, ?_, by simp [applyEmissionPrices], ?_, ?_, rfl⟩
  · intro i h1 h2
    simp only [applyEmissionPrices] at h2 ⊢
    simp [List.getD_eq_getElem?_getD, List.getElem?_map,
      List.getElem?_eq_getElem h1, carrierEp_single_co2]
  · intro i h1 h2
    simp only [applyEmissionPrices] at h2 ⊢
    simp [List.getD_eq_getElem?_getD, List.getElem?_map,
      List.getElem?_eq_getElem h1]
  · intro i h1 h2
    simp only [applyEmissionPrices] at h2 ⊢
    simp [List.getD_eq_getElem?_getD, List.getElem?_map,
      List.getElem?_eq_getElem h1, carrierEp_single_co2]

/-- Witness for C4: at the example network with price 10 the solar
generator's marginal cost rises by `10 * 0 / (1/2)`. -/
theorem add_emission_prices_single_co2_spec_witness :
    (0 : Nat) < exampleNetwork.generators.length ∧
    ((applyEmissionPrices exampleNetwork [("co2", 10)]).generators.getD 0
        defaultGen).marginal_cost =
      (exampleNetwork.generators.getD 0 defaultGen).marginal_cost +
        10 * carrierCo2 exampleNetwork
            (exampleNetwork.generators.getD 0 defaultGen).carrier /
          (exampleNetwork.generators.getD 0 defaultGen).efficiency :=
  ⟨by decide,
    (add_emission_prices_single_co2_spec exampleNetwork 10).2.1 0 (by decide)
      (by decide)⟩

/-- C10: `add_emission_prices` with `exclude_co2 = true` pops `"co2"` from
the caller-supplied price map itself — the caller's dictionary loses the
entry while the shared default object is untouched — and a call that relies
on the default argument pops `"co2"` from the single shared default
dictionary, so the removal persists into subsequent calls relying on the
default. -/
theorem add_emission_prices_default_mutation (d m : List (String × ℚ))
    (hm : "co2" ∈ akeys m) (hd : "co2" ∈ akeys d) :
    add_emission_prices_call d (some m) true =
      Except.ok (d, aerase m "co2", some (aerase m "co2")) ∧
    add_emission_prices_call d none true =
      Except.ok (aerase d "co2", aerase d "co2", none) ∧
    "co2" ∉ akeys (aerase d "co2") ∧
    add_emission_prices_call (aerase d "co2") none false =
      Except.ok (aerase d "co2", aerase d "co2", none) := by
  refine ⟨?_, ?_, ?_, rfl⟩
  · simp [add_emission_prices_call, hm]
  · simp [add_emission_prices_call, hd]
  · simp [akeys, aerase, List.mem_map, List.mem_filter]

/-- Witness for C10: concrete dictionaries containing the `"co2"` key. -/
theorem add_emission_prices_default_mutation_witness :
    "co2" ∈ akeys [("co2", (5 : ℚ)), ("so2", 1)] ∧
    "co2" ∈ akeys [("co2", (0 : ℚ))] ∧
    add_emission_prices_call [("co2", (0 : ℚ))]
        (some [("co2", (5 : ℚ)), ("so2", 1)]) true =
      Except.ok ([("co2", (0 : ℚ))], [("so2", (1 : ℚ))],
        some [("so2", (1 : ℚ))]) :=
  ⟨by decide, by decide,
    (add_emission_prices_default_mutation [("co2", 0)] [("co2", 5), ("so2", 1)]
      (by decide) (by decide)).1⟩

/-- C6: on a network whose `gas_usage` column is fresh (the unselected rows'
pandas-NaN value is modelled as 0), `add_gaslimit(limit, Nyears)` sets
`gas_usage` to 1.0 for exactly the carriers present in the network that are
among `{OCGT, CCGT, CHP}`, leaves every other carrier's `gas_usage` at 0,
keeps the carrier rows' names and order, and appends exactly one global
constraint on the `gas_usage` attribute with sense `"<="` and constant
`limit * Nyears`. -/
theorem add_gaslimit_spec (n : Network) (limit Nyears : ℚ)
    (h0 : ∀ c ∈ n.carriers, c.gas_usage = 0) :
    (∀ c ∈ (add_gaslimit n limit Nyears).carriers,
      c.gas_usage = if c.name ∈ gasCarriers then 1 else 0) ∧
    (add_gaslimit n limit Nyears).carriers.map Carrier.name =
      n.carriers.map Carrier.name ∧
    (add_gaslimit n limit Nyears).global_constraints =
      n.global_constraints ++
        [{ name := "GasLimit", type := "", carrier_attribute := "gas_usage",
           sense := "<=", constant := limit * Nyears }] := by
  refine ⟨?_, ?_, rfl⟩
  · intro c hc
    simp only [add_gaslimit, List.mem_map] at hc
    obtain ⟨c0, hc0, rfl⟩ := hc
    by_cases h : c0.name ∈ gasCarriers <;> simp [h, h0 c0 hc0]
  · simp only [add_gaslimit, List.map_map]
    refine List.map_congr_left ?_
    intro c hc
    by_cases h : c.name ∈ gasCarriers <;> simp [h]

/-- Witness for C6: the example network's `gas_usage` column is all zero,
and after the call its `OCGT` row carries 1 while `solar` stays 0. -/
theorem add_gaslimit_spec_witness :
    (∀ c ∈ exampleNetwork.carriers, c.gas_usage = 0) ∧
    (∀ c ∈ (add_gaslimit exampleNetwork 100 2).carriers,
      c.gas_usage = if c.name ∈ gasCarriers then 1 else 0) :=
  ⟨by decide, (add_gaslimit_spec exampleNetwork 100 2 (by decide)).1⟩

/-- C8: `enforce_autarky` with `only_crossborder = true` keeps exactly the
lines and links whose endpoint buses lie in the same country (so it removes
exactly the cross-border ones and no others); with `only_crossborder =
false` it removes every (AC) line and every DC link unconditionally; and the
surviving time-series columns all belong to surviving entities, so the
removed entities' series are deleted with them. -/
theorem enforce_autarky_spec (n : Network) :
    (∀ l : Line, l ∈ (enforce_autarky n true).lines ↔
      l ∈ n.lines ∧ busCountry n l.bus0 = busCountry n l.bus1) ∧
    (∀ l : Link, l ∈ (enforce_autarky n true).links ↔
      l ∈ n.links ∧ busCountry n l.bus0 = busCountry n l.bus1) ∧
    (enforce_autarky n false).lines = [] ∧
    (∀ l : Link, l ∈ (enforce_autarky n false).links ↔
      l ∈ n.links ∧ l.carrier ≠ "DC") ∧
    (∀ b : Bool, ∀ col ∈ (enforce_autarky n b).lines_t_s_max_pu,
      col ∈ n.lines_t_s_max_pu ∧
        col.1 ∈ (enforce_autarky n b).lines.map Line.name) ∧
    (∀ b : Bool, ∀ col ∈ (enforce_autarky n b).links_t_p_max_pu,
      col ∈ n.links_t_p_max_pu ∧
        col.1 ∈ (enforce_autarky n b).links.map Link.name) := by
  refine ⟨?_, ?_, ?_, ?_, ?_, ?_⟩
  · intro l
    simp [enforce_autarky, List.mem_filter]
  · intro l
    simp [enforce_autarky, List.mem_filter]
  · simp [enforce_autarky]
  · intro l
    simp [enforce_autarky, List.mem_filter]
  · intro b col hcol
    simp only [enforce_autarky, List.mem_filter] at hcol
    refine ⟨hcol.1, ?_⟩
    have := hcol.2
    simp only [enforce_autarky]
    simpa using this
  · intro b col hcol
    simp only [enforce_autarky, List.mem_filter] at hcol
    refine ⟨hcol.1, ?_⟩
    have := hcol.2
    simp only [enforce_autarky]
    simpa using this

/-- Witness for C8: on the example network the membership biconditional
holds at the same-country AC link `k2`. -/
theorem enforce_autarky_spec_witness :
    exampleNetwork.links.getD 1 defaultLink ∈
        (enforce_autarky exampleNetwork true).links ↔
      exampleNetwork.links.getD 1 defaultLink ∈ exampleNetwork.links ∧
        busCountry exampleNetwork (exampleNetwork.links.getD 1 defaultLink).bus0 =
          busCountry exampleNetwork (exampleNetwork.links.getD 1 defaultLink).bus1 :=
  (enforce_autarky_spec exampleNetwork).2.1 (exampleNetwork.links.getD 1 defaultLink)

/-- Network refuting C9 as stated: its one line and its one DC link satisfy
the ceilings `(some 10, some 3)`, but a non-DC link sits above the link
ceiling, and the final `clip` applies to every link. -/
def counterNetwork9 : Network :=
  { buses := [], line_types := [],
    lines := [{ name := "l1", type := "", bus0 := "", bus1 := "",
                s_nom := 1, s_nom_min := 0, s_nom_max := 1,
                s_nom_extendable := false, s_max_pu := 1, capital_cost := 0,
                length := 1, num_parallel := 1 }],
    links := [{ name := "k1", carrier := "DC", bus0 := "", bus1 := "",
                p_nom := 2, p_nom_min := 0, p_nom_max := 2,
                p_nom_extendable := false, capital_cost := 0,
                marginal_cost := 0, length := 1 },
              { name := "k2", carrier := "b2b", bus0 := "", bus1 := "",
                p_nom := 5, p_nom_min := 0, p_nom_max := 5,
                p_nom_extendable := false, capital_cost := 0,
                marginal_cost := 0, length := 1 }],
    generators := [], storage_units := [], stores := [], carriers := [],
    global_constraints := [], snapshots := [0], snapshot_weightings := [1],
    generators_t_marginal_cost := [], generators_t_p_max_pu := [],
    loads_t_p_set := [], storage_units_t_inflow := [],
    lines_t_s_max_pu := [], links_t_p_max_pu := [] }

/-- Counterexample to C9 as stated: all line and all DC-link maximum
capacities of `counterNetwork9` already satisfy the ceilings and no
extension budget is given, yet `set_line_nom_max` changes the network — the
clip also caps the non-DC link `k2`. -/
theorem set_line_nom_max_dc_counterexample :
    (∀ l ∈ counterNetwork9.lines,
      clipUpper l.s_nom_max (some 10) = l.s_nom_max) ∧
    (∀ l ∈ counterNetwork9.links, l.carrier = "DC" →
      clipUpper l.p_nom_max (some 3) = l.p_nom_max) ∧
    set_line_nom_max counterNetwork9 (some 10) (some 3) none none ≠
      counterNetwork9 := by
  decide

/-- C9 (amended: the ceilings must already be satisfied by every line and
every link, not only the DC ones): with no finite positive extension budget
and all line and link maximum capacities satisfying the configured
ceilings, `set_line_nom_max` leaves the network unchanged, so applying it
twice equals applying it once. -/
theorem set_line_nom_max_idempotent (n : Network) (s p : Option ℚ)
    (hl : ∀ l ∈ n.lines, clipUpper l.s_nom_max s = l.s_nom_max)
    (hk : ∀ l ∈ n.links, clipUpper l.p_nom_max p = l.p_nom_max) :
    set_line_nom_max n s p none none = n ∧
    set_line_nom_max (set_line_nom_max n s p none none) s p none none =
      set_line_nom_max n s p none none := by
  have h1 : n.lines.map (fun l => { l with s_nom_max := clipUpper l.s_nom_max s })
      = n.lines := by
    conv_rhs => rw [← List.map_id n.lines]
    refine List.map_congr_left ?_
    intro l hmem
    simp [hl l hmem]
  have h2 : n.links.map (fun l => { l with p_nom_max := clipUpper l.p_nom_max p })
      = n.links := by
    conv_rhs => rw [← List.map_id n.links]
    refine List.map_congr_left ?_
    intro l hmem
    simp [hk l hmem]
  have hmain : set_line_nom_max n s p none none = n := by
    simp only [set_line_nom_max, isFinitePos, Bool.false_eq_true, if_false]
    rw [h1, h2]
  exact ⟨hmain, by rw [hmain]; exact hmain⟩

/-- Witness for C9 (amended): with no configured ceilings the clip
hypotheses hold trivially on the example network and the operation is the
identity. -/
theorem set_line_nom_max_idempotent_witness :
    (∀ l ∈ exampleNetwork.lines,
      clipUpper l.s_nom_max none = l.s_nom_max) ∧
    set_line_nom_max exampleNetwork none none none none = exampleNetwork :=
  ⟨by decide,
    (set_line_nom_max_idempotent exampleNetwork none none (by decide)
      (by decide)).1⟩

/-- C5: for every network and every segment count between 1 and the number
of snapshots, `apply_time_segmentation` sets the new snapshot weightings
equal to the collaborator's segment durations (one per requested segment),
labels each new snapshot by offsetting the first original snapshot by the
cumulative duration of the preceding segments in hours, and the output
segment durations sum to the number of original snapshots. -/
theorem apply_time_segmentation_spec (n : Network) (s : Nat)
    (hs : 0 < s) (hsN : s ≤ n.snapshots.length) :
    (apply_time_segmentation n s).snapshot_weightings =
      (tsamSegmentDurations n.snapshots.length s).map (fun d : Nat => (d : ℚ)) ∧
    (tsamSegmentDurations n.snapshots.length s).length = s ∧
    (∀ i, i < s →
      (apply_time_segmentation n s).snapshots.getD i 0 =
        n.snapshots.headI +
          ((((tsamSegmentDurations n.snapshots.length s).take i).sum : Nat) : ℚ)) ∧
    (apply_time_segmentation n s).snapshot_weightings.sum =
      (n.snapshots.length : ℚ) := by
  have hlen : (tsamSegmentDurations n.snapshots.length s).length = s := by
    simp [tsamSegmentDurations]
    omega
  have hsum : (tsamSegmentDurations n.snapshots.length s).sum =
      n.snapshots.length := by
    simp [tsamSegmentDurations, List.sum_replicate, smul_eq_mul]
    omega
  refine ⟨rfl, hlen, ?_, ?_⟩
  · intro i hi
    have hi' : i < (tsamSegmentDurations n.snapshots.length s).length := by
      rw [hlen]; exact hi
    show ((segStarts (tsamSegmentDurations n.snapshots.length s)).map
        (fun o : Nat => n.snapshots.headI + (o : ℚ))).getD i 0 = _
    rw [List.getD_eq_getElem?_getD, List.getElem?_map]
    have hseg : (segStarts (tsamSegmentDurations n.snapshots.length s))[i]? =
        some (((tsamSegmentDurations n.snapshots.length s).take i).sum) := by
      simp [segStarts, List.getElem?_map, List.getElem?_range, hi']
    rw [hseg]
    rfl
  · show ((tsamSegmentDurations n.snapshots.length s).map
      (fun d : Nat => (d : ℚ))).sum = (n.snapshots.length : ℚ)
    conv_rhs => rw [← hsum]
    exact_mod_cast (Nat.cast_list_sum (tsamSegmentDurations n.snapshots.length s)).symm

/-- Witness for C5: two segments over the example network's three
snapshots; the output weightings sum to 3. -/
theorem apply_time_segmentation_spec_witness :
    0 < 2 ∧ 2 ≤ exampleNetwork.snapshots.length ∧
    (apply_time_segmentation exampleNetwork 2).snapshot_weightings.sum =
      (exampleNetwork.snapshots.length : ℚ) :=
  ⟨by decide, by decide,
    (apply_time_segmentation_spec exampleNetwork 2 (by decide)
      (by decide)).2.2.2⟩

/-- `List.getD` through a `map`, at an in-range index. -/
theorem getD_map_lt {α β : Type} (f : α → β) (l : List α) (i : Nat)
    (h : i < l.length) (d : β) (d' : α) :
    (l.map f).getD i d = f (l.getD i d') := by
  simp [List.getD_eq_getElem?_getD, List.getElem?_map,
    List.getElem?_eq_getElem h]

/-- Cost table used in witnesses. -/
def exampleCosts : Costs :=
  { hvac_cost_per_length := 1, hvdc_cost_per_length := 1 }

/-- C1: `set_transmission_limit` marks the lines and DC links as
capacity-extendable with minimum capacity equal to their pre-call (effective)
capacity exactly when the factor is the `"opt"` sentinel or a numeric factor
strictly greater than 1 (otherwise those fields keep their pre-call values;
non-DC links are never marked), and appends exactly one global
expansion-limit constraint with sense `"<="` and constant
`factor * reference` exactly when the factor is not the sentinel. -/
theorem set_transmission_limit_spec (n : Network) (ll_type : String)
    (factor : LLFactor) (costs : Costs) :
    (extendCond factor = true ↔
      factor = LLFactor.opt ∨ ∃ q, factor = LLFactor.num q ∧ 1 < q) ∧
    (constraintCond factor = true ↔ factor ≠ LLFactor.opt) ∧
    (∀ i, i < n.lines.length →
      i < (set_transmission_limit n ll_type factor costs).lines.length →
      ((set_transmission_limit n ll_type factor costs).lines.getD i
          defaultLine).s_nom_extendable =
        (if extendCond factor then true
         else (n.lines.getD i defaultLine).s_nom_extendable) ∧
      ((set_transmission_limit n ll_type factor costs).lines.getD i
          defaultLine).s_nom_min =
        (if extendCond factor then lines_s_nom n (n.lines.getD i defaultLine)
         else (n.lines.getD i defaultLine).s_nom_min)) ∧
    (∀ i, i < n.links.length →
      i < (set_transmission_limit n ll_type factor costs).links.length →
      ((set_transmission_limit n ll_type factor costs).links.getD i
          defaultLink).p_nom_extendable =
        (if extendCond factor = true ∧
            (n.links.getD i defaultLink).carrier = "DC" then true
         else (n.links.getD i defaultLink).p_nom_extendable) ∧
      ((set_transmission_limit n ll_type factor costs).links.getD i
          defaultLink).p_nom_min =
        (if extendCond factor = true ∧
            (n.links.getD i defaultLink).carrier = "DC" then
          (n.links.getD i defaultLink).p_nom
         else (n.links.getD i defaultLink).p_nom_min)) ∧
    (set_transmission_limit n ll_type factor costs).global_constraints =
      n.global_constraints ++
        (if constraintCond factor then
          [{ name := "l" ++ ll_type ++ "_limit",
             type := "transmission_" ++
               (if ll_type = "c" then "expansion_cost"
                else "volume_expansion") ++ "_limit",
             carrier_attribute := "AC, DC", sense := "<=",
             constant := factorVal factor * transmissionRef n ll_type }]
         else []) := by
  refine ⟨?_, ?_, ?_, ?_, ?_⟩
  · cases factor with
    | opt => simp [extendCond]
    | num q =>
      simp only [extendCond, decide_eq_true_eq]
      constructor
      · intro h
        exact Or.inr ⟨q, rfl, h⟩
      · rintro (h | ⟨q', hq', h⟩)
        · exact absurd h (by simp)
        · cases hq'
          exact h
  · cases factor with
    | opt => simp [constraintCond]
    | num q => simp [constraintCond]
  · intro i h1 h2
    cases hext : extendCond factor with
    | true =>
      have hlines : (set_transmission_limit n ll_type factor costs).lines =
          (n.lines.map (fun l =>
            { l with capital_cost := l.length * costs.hvac_cost_per_length })).map
            (fun l =>
              { l with s_nom_min := lines_s_nom n l, s_nom_extendable := true }) := by
        simp [set_transmission_limit, update_transmission_costs, hext]
        split <;> rfl
      rw [hlines, List.map_map,
        getD_map_lt _ n.lines i h1 defaultLine defaultLine]
      refine ⟨by simp [hext], ?_⟩
      simp only [hext, if_true, Function.comp]
      show lines_s_nom n
          { n.lines.getD i defaultLine with
            capital_cost := (n.lines.getD i defaultLine).length *
              costs.hvac_cost_per_length } =
        lines_s_nom n (n.lines.getD i defaultLine)
      simp [lines_s_nom]
    | false =>
      have hlines : (set_transmission_limit n ll_type factor costs).lines =
          n.lines.map (fun l =>
            { l with capital_cost := l.length * costs.hvac_cost_per_length }) := by
        simp [set_transmission_limit, update_transmission_costs, hext]
        split <;> rfl
      rw [hlines, getD_map_lt _ n.lines i h1 defaultLine defaultLine]
      simp [hext]
  · intro i h1 h2
    cases hext : extendCond factor with
    | true =>
      have hlinks : (set_transmission_limit n ll_type factor costs).links =
          (n.links.map (fun l =>
            if l.carrier = "DC" then
              { l with capital_cost := l.length * costs.hvdc_cost_per_length }
            else l)).map
            (fun l =>
              if l.carrier = "DC" then
                { l with p_nom_min := l.p_nom, p_nom_extendable := true }
              else l) := by
        simp [set_transmission_limit, update_transmission_costs, hext]
        split <;> rfl
      rw [hlinks, List.map_map,
        getD_map_lt _ n.links i h1 defaultLink defaultLink]
      generalize n.links.getD i defaultLink = L
      by_cases hdc : L.carrier = "DC" <;> simp [Function.comp, hdc, hext]
    | false =>
      have hlinks : (set_transmission_limit n ll_type factor costs).links =
          n.links.map (fun l =>
            if l.carrier = "DC" then
              { l with capital_cost := l.length * costs.hvdc_cost_per_length }
            else l) := by
        simp [set_transmission_limit, update_transmission_costs, hext]
        split <;> rfl
      rw [hlinks, getD_map_lt _ n.links i h1 defaultLink defaultLink]
      generalize n.links.getD i defaultLink = L
      by_cases hdc : L.carrier = "DC" <;> simp [hdc, hext]
  · cases hcon : constraintCond factor with
    | true =>
      cases hext : extendCond factor <;>
        simp [set_transmission_limit, update_transmission_costs, hext, hcon]
    | false =>
      cases hext : extendCond factor <;>
        simp [set_transmission_limit, update_transmission_costs, hext, hcon]

/-- Witness for C1: factor 2 on the example network marks its line
extendable with the effective capacity as minimum. -/
theorem set_transmission_limit_spec_witness :
    (0 : Nat) < exampleNetwork.lines.length ∧
    ((set_transmission_limit exampleNetwork "v" (LLFactor.num 2)
        exampleCosts).lines.getD 0 defaultLine).s_nom_extendable =
      (if extendCond (LLFactor.num 2) then true
       else (exampleNetwork.lines.getD 0 defaultLine).s_nom_extendable) ∧
    ((set_transmission_limit exampleNetwork "v" (LLFactor.num 2)
        exampleCosts).lines.getD 0 defaultLine).s_nom_min =
      (if extendCond (LLFactor.num 2) then
        lines_s_nom exampleNetwork (exampleNetwork.lines.getD 0 defaultLine)
       else (exampleNetwork.lines.getD 0 defaultLine).s_nom_min) :=
  ⟨by decide,
    (set_transmission_limit_spec exampleNetwork "v" (LLFactor.num 2)
      exampleCosts).2.2.1 0 (by decide) (by decide)⟩

/-- Counterexample to C3: with the option tokens `["3h", "100seg"]` (the
wildcard `3h-100seg`) and no config values, the orchestrator's temporal
stage applies both `average_every_nhours` and `apply_time_segmentation` in
the same run — the two conditions are independent `if` blocks, not mutually
exclusive. -/
theorem temporal_exclusivity_counterexample :
    (temporalStage ["3h", "100seg"] none none exampleNetwork).2 =
      (true, true) := by
  decide

/-- C3 (amended: the two reductions are controlled independently, not
mutually exclusively): averaging fires iff an hours option is present
(wildcard or config fallback), segmentation fires iff a segmentation option
is present, and when both are present both transforms are applied, the
segmentation on the already-averaged network. -/
theorem temporalStage_independent (opts : List String)
    (cfgRes cfgSeg : Option String) (n : Network) :
    (temporalStage opts cfgRes cfgSeg n).2 =
      (((get_opt opts isHoursToken).orElse (fun _ => cfgRes)).isSome,
       ((get_opt opts isSegToken).orElse (fun _ => cfgSeg)).isSome) ∧
    (temporalStage opts cfgRes cfgSeg n).1 =
      (match (get_opt opts isHoursToken).orElse (fun _ => cfgRes),
             (get_opt opts isSegToken).orElse (fun _ => cfgSeg) with
       | some a, some b =>
         apply_time_segmentation (average_every_nhours n (hoursOfToken a))
           (segsOfToken b)
       | some a, none => average_every_nhours n (hoursOfToken a)
       | none, some b => apply_time_segmentation n (segsOfToken b)
       | none, none => n) := by
  rcases h1 : (get_opt opts isHoursToken).orElse (fun _ => cfgRes) with _ | a <;>
    rcases h2 : (get_opt opts isSegToken).orElse (fun _ => cfgSeg) with _ | b <;>
      simp [temporalStage, h1, h2]

/-- Counterexample to C7 as stated: on the example network (which has the
carrier `solar`) the token `solar+x2` has the unknown attribute code `x`;
the pipeline raises `KeyError('x')`, whose payload is the single character
`x` and does not contain (hence does not identify) the offending token
`solar+x2`. -/
theorem scaling_unknown_attr_counterexample :
    processToken exampleNetwork "solar+x2" = Except.error "x" ∧
    containsSubstrB "x" "solar+x2" = false := by
  constructor
  · rfl
  · rfl

/-- C7 (amended: the error identifies the offending attribute code, not the
token): for every scaling token splitting at `"+"` into a carrier part that
matches a network carrier and a non-empty attribute part whose leading code
is not in `{p, c, m}`, processing raises a key-lookup error whose payload is
exactly that one-character code, and no network is produced, so no
attribute is scaled. -/
theorem processToken_unknown_attr (n : Network) (c0 a : String)
    (rest : List String) (o : String)
    (hsplit : strSplit o '+' = c0 :: a :: rest)
    (ha : a.isEmpty = false)
    (hmatch : (n.carriers.map (fun c => (strSplit c.name '-').headI)).any
      (fun t => strStartsWith c0 t) = true)
    (hcode : attr_lookup a.front = none) :
    processToken n o = Except.error (String.mk [a.front]) ∧
    ∀ m : Network, processToken n o ≠ Except.ok m := by
  have hrun : processToken n o = Except.error (String.mk [a.front]) := by
    unfold processToken
    rw [hsplit]
    simp [hmatch, ha, hcode]
  exact ⟨hrun, fun m hm => by rw [hrun] at hm; exact Except.noConfusion hm⟩

/-- Witness for C7 (amended): the concrete token `solar+x2` on the example
network satisfies all the hypotheses and yields the error payload `x`. -/
theorem processToken_unknown_attr_witness :
    (strSplit "solar+x2" '+' = ["solar", "x2"]) ∧
    ("x2".isEmpty = false) ∧
    processToken exampleNetwork "solar+x2" =
      Except.error (String.mk ["x2".front]) :=
  ⟨by decide, by decide,
    (processToken_unknown_attr exampleNetwork "solar" "x2" [] "solar+x2"
      (by decide) (by decide) (by decide) (by decide)).1⟩

end PrepareNetwork
